import Mathlib

/-
Shallow embedding of the ENEM-2023 analysis dashboard
(matheusfabiao/projeto-analise-de-dados-enem-2023) for verification of its
specification. The repository consists of main.py, src/services/streamlit_service.py,
src/utils/prompt.py and src/config/logger.py. Numeric score values are modelled
as rationals; missing values (NaN cells) as Option.none; the nonfinite results of
numpy float division (inf, -inf, nan) by an explicit inductive; Python exceptions
as Except values.
-/

set_option autoImplicit false

namespace Enem2023

/- ----------------------------------------------------------------
   C1: the two-group comparison metric, main.py lines 186-195 (tab1).
   mean_with and mean_without are pandas Series.mean() results (numpy
   float64). The code computes
     diff = mean_with - mean_without
     percentage = diff / mean_without * 100
   with no guard and no try/except: numpy float64 scalar division by
   zero emits a RuntimeWarning and returns inf, -inf or nan; it does
   not raise an exception.
   ---------------------------------------------------------------- -/

/-- Result of a numpy float64 arithmetic expression: a finite value
(modelled exactly as a rational) or one of the nonfinite floats. -/
inductive NpVal where
  | val (q : ℚ)
  | posInf
  | negInf
  | nan
deriving DecidableEq, Repr

/-- numpy float64 scalar division on finite operands: x / 0 is inf for x > 0,
-inf for x < 0, nan for x = 0 (no exception is raised); otherwise the exact
rational quotient. -/
def npDiv (x y : ℚ) : NpVal :=
  if y = 0 then
    if x > 0 then NpVal.posInf else if x < 0 then NpVal.negInf else NpVal.nan
  else
    NpVal.val (x / y)

/-- Multiplication of a numpy value by the finite positive constant 100
(the `* 100` of main.py line 195): scales a finite value, fixes inf, -inf and nan. -/
def npMul100 : NpVal → NpVal
  | NpVal.val q => NpVal.val (q * 100)
  | NpVal.posInf => NpVal.posInf
  | NpVal.negInf => NpVal.negInf
  | NpVal.nan => NpVal.nan

/-- Embedding of main.py lines 193-195: given the two group means, the code
computes the difference and, unguarded, the percentage of the baseline
(`diff / mean_without * 100`). -/
def percentage_metric (mean_with mean_without : ℚ) : ℚ × NpVal :=
  (mean_with - mean_without, npMul100 (npDiv (mean_with - mean_without) mean_without))

/- ----------------------------------------------------------------
   C9: load_data, streamlit_service.py lines 14-29 (same loop in
   main.py lines 27-34). After pd.read_csv, every column whose dtype
   is object is converted with astype to category; no other column is
   touched. We model the schema of the loaded table: the list of
   (column name, dtype) pairs, in column order.
   ---------------------------------------------------------------- -/

/-- pandas column dtypes relevant to the loaded table: object (plain text),
category, and the numeric dtypes produced by read_csv. -/
inductive Dtype where
  | object
  | category
  | int64
  | float64
deriving DecidableEq, Repr

/-- Embedding of the dtype-optimization loop of load_data
(streamlit_service.py lines 26-27, main.py lines 31-32): every column in
`df.select_dtypes(include=["object"])` is reassigned with
`astype("category")`; columns of any other dtype are left as read. -/
def load_data_optimize (schema : List (String × Dtype)) : List (String × Dtype) :=
  schema.map (fun cd => if cd.2 = Dtype.object then (cd.1, Dtype.category) else cd)

/- ----------------------------------------------------------------
   C2: the per-group aggregation
     df.groupby("INTERNET", observed=True)[area_col].describe()
   of main.py line 201 and streamlit_service.py lines 124-126. A row
   of the input is modelled by its group-key cell (the INTERNET
   column, possibly missing) and its metric cell (possibly NaN).
   pandas groupby drops rows whose key is NaN, forms one group per
   distinct key value present (observed=True), and describe reports,
   for each such group, the count of non-NaN metric values — a group
   all of whose metric values are NaN is still reported, with count 0.
   ---------------------------------------------------------------- -/

/-- One input row as seen by the groupby-describe aggregation: the group-key
cell and the metric cell, either of which may be missing (NaN). -/
structure Rec where
  key : Option String
  val : Option ℚ
deriving DecidableEq, Repr

/-- The describe count of one group: the number of rows carrying this key
whose metric value is not missing. -/
def groupCount (rows : List Rec) (k : String) : Nat :=
  (rows.filter (fun r => r.key == some k && r.val.isSome)).length

/-- Embedding of `df.groupby("INTERNET", observed=True)[col].describe()`
restricted to the count column: one entry per distinct non-missing key value
occurring in the table, carrying that group's count of non-missing metric
values. -/
def aggregate_describe (rows : List Rec) : List (String × Nat) :=
  ((rows.filterMap (fun r => r.key)).dedup).map (fun k => (k, groupCount rows k))

/- ----------------------------------------------------------------
   C3, C5, C10: generate_comparison_chart
   (streamlit_service.py lines 33-95; same logic in main.py 68-107).
   The table is modelled with its column names and positional rows so
   that column retention is visible. pandas DataFrame.sample with a
   fixed random_state is a deterministic without-replacement row
   selection; it is modelled by an explicit linear-congruential
   selection, which has the two properties the code relies on:
   it is a pure function of (seed, n, rows) and returns exactly n
   rows when n is at most the row count.
   ---------------------------------------------------------------- -/

/-- One table cell: a numeric value, a text value, or missing. -/
inductive Cell where
  | num (q : ℚ)
  | str (s : String)
  | null
deriving DecidableEq, Repr

/-- A dataframe: column names and rows of cells in column order. -/
structure DataFrame where
  cols : List String
  rows : List (List Cell)
deriving DecidableEq, Repr

/-- The cell of a row in a named column. -/
def rowVal (df : DataFrame) (c : String) (row : List Cell) : Cell :=
  row.getD (df.cols.indexOf c) Cell.null

/-- The text content of a cell, if any. -/
def cellStr : Cell → Option String
  | Cell.str s => some s
  | _ => none

/-- The numeric content of a cell, if any. -/
def cellNum : Cell → Option ℚ
  | Cell.num q => some q
  | _ => none

/-- One step of a linear congruential generator, driving the deterministic
model of the seeded pandas row sampler. -/
def lcgNext (s : Nat) : Nat := (s * 1103515245 + 12345) % 2 ^ 31

/-- Deterministic model of `DataFrame.sample(n, random_state=seed)`:
a without-replacement selection of n rows (all rows when fewer exist),
each picked by the generator state. -/
def sampleRows {α : Type} : Nat → Nat → List α → List α
  | _, 0, _ => []
  | _, _ + 1, [] => []
  | seed, n + 1, r :: rs =>
    (r :: rs).get ⟨lcgNext seed % (r :: rs).length, Nat.mod_lt _ (Nat.succ_pos rs.length)⟩ ::
      sampleRows (lcgNext seed) n ((r :: rs).eraseIdx (lcgNext seed % (r :: rs).length))

/-- The (RENDA_SIMPLIFICADA, INTERNET) key of a row, when both cells hold
text; pandas groupby drops the row from every group otherwise. -/
def rendaInternetKey (df : DataFrame) (row : List Cell) : Option (String × String) :=
  match cellStr (rowVal df "RENDA_SIMPLIFICADA" row), cellStr (rowVal df "INTERNET" row) with
  | some a, some b => some (a, b)
  | _, _ => none

/-- Embedding of the aggregation of the final branch (streamlit_service.py
lines 80-84): `groupby(["RENDA_SIMPLIFICADA", "INTERNET"], observed=True)[area_col].mean()`
— one entry per key combination present in the data, carrying the mean of the
non-missing metric values of the group (none when the group has only missing
values, where pandas reports NaN). -/
def groupbyMeanRendaInternet (df : DataFrame) (area_col : String) :
    List (String × String × Option ℚ) :=
  ((df.rows.filterMap (rendaInternetKey df)).dedup).map (fun p =>
    let vs := (df.rows.filter (fun r => rendaInternetKey df r == some p)).filterMap
      (fun r => cellNum (rowVal df area_col r))
    (p.1, p.2, if vs.length = 0 then none else some (vs.sum / (vs.length : ℚ))))

/-- The chart value returned by generate_comparison_chart: which plotly
figure is built, from which derived data. -/
inductive ChartView where
  | box (sampled : DataFrame) (title : String)
  | histogram (df : DataFrame) (areaCol : String) (nbins : Nat) (title : String)
  | groupedBar (agg : List (String × String × Option ℚ)) (title : String)
deriving Repr

/-- Embedding of generate_comparison_chart (streamlit_service.py lines
34-95): an if on the chart_type string selects the boxplot over a seeded
sample of min(5000, len) rows, the histogram, or — in the final else branch,
for every other string — the grouped-mean bar chart. -/
def generate_comparison_chart (df : DataFrame) (area_col chart_type selected_area : String) :
    ChartView :=
  if chart_type = "Boxplot Simplificado" then
    ChartView.box
      { cols := df.cols, rows := sampleRows 42 (min 5000 df.rows.length) df.rows }
      ("Distribuição de " ++ selected_area)
  else if chart_type = "Histograma Agregado" then
    ChartView.histogram df area_col 30 ("Distribuição Percentual de " ++ selected_area)
  else
    ChartView.groupedBar (groupbyMeanRendaInternet df area_col)
      ("Médias de " ++ selected_area ++ " por Renda e Internet")

/- ----------------------------------------------------------------
   C4: summary_df.pivot(index="Área", columns="INTERNET", values=[...])
   of main.py lines 231-235. The long form is a list of
   (area, access flag, statistic value) triples; pandas pivot indexes
   by the distinct areas, makes one column per distinct flag, puts the
   value of the unique matching triple in each cell (NaN when the
   combination is absent) and raises on duplicate (area, flag) keys.
   Un-pivoting (stack) drops the NaN cells.
   ---------------------------------------------------------------- -/

/-- The (index, columns) key of a long-form triple. -/
def pivotKey (t : String × String × ℚ) : String × String := (t.1, t.2.1)

/-- The distinct area labels of a long-form table, the pivot index. -/
def pivotAreas (l : List (String × String × ℚ)) : List String :=
  (l.map (fun t => t.1)).dedup

/-- The distinct access-flag labels of a long-form table, the pivot columns. -/
def pivotFlags (l : List (String × String × ℚ)) : List String :=
  (l.map (fun t => t.2.1)).dedup

/-- The cell of the wide form at (area, flag): the value of the matching
triple, none (NaN) when the combination is absent from the long form. -/
def lookupCell (l : List (String × String × ℚ)) (a f : String) : Option ℚ :=
  (l.find? (fun t => t.1 == a && t.2.1 == f)).map (fun t => t.2.2)

/-- The wide form: one row per distinct area, one labelled cell per distinct
access flag. -/
def pivotWide (l : List (String × String × ℚ)) :
    List (String × List (String × Option ℚ)) :=
  (pivotAreas l).map (fun a => (a, (pivotFlags l).map (fun f => (f, lookupCell l a f))))

/-- Embedding of `summary_df.pivot(index="Área", columns="INTERNET", values=...)`
(main.py line 233): pandas raises ValueError when the (index, columns) keys
repeat — modelled by none — and otherwise reshapes to the wide form. -/
def pivot (l : List (String × String × ℚ)) :
    Option (List (String × List (String × Option ℚ))) :=
  if (l.map pivotKey).Nodup then some (pivotWide l) else none

/-- Un-pivoting the wide form (pandas stack with its default dropna):
every non-missing cell becomes the triple of its row index, column label
and value. -/
def unpivot (w : List (String × List (String × Option ℚ))) :
    List (String × String × ℚ) :=
  w.flatMap (fun ac => ac.2.filterMap (fun fc => fc.2.map (fun v => (ac.1, fc.1, v))))

/- ----------------------------------------------------------------
   C6: generate_prompt (src/utils/prompt.py lines 1-33), a pure
   f-string over the two labels and data_summary.to_string(). The
   statistic table is modelled with its header texts and its rows
   (index label plus formatted cells, in table order); to_string is
   the deterministic pandas rendering: a header line followed by one
   line per row, all rows included.
   ---------------------------------------------------------------- -/

/-- The statistic table handed to generate_prompt: header texts and rows,
each row an index label with its formatted cells, in the table's own order. -/
structure StatTable where
  header : List String
  rows : List (String × List String)
deriving DecidableEq, Repr

/-- The rendering of one table row in DataFrame.to_string: the index label
followed by the formatted cells. -/
def renderRow (r : String × List String) : String :=
  r.2.foldl (fun acc c => acc ++ "  " ++ c) r.1

/-- Newline-joined lines. -/
def joinLines : List String → String
  | [] => ""
  | [x] => x
  | x :: y :: xs => x ++ ("\n" ++ joinLines (y :: xs))

/-- Model of pandas DataFrame.to_string on the statistic table: the header
line then one line per row, in table order, with no truncation. -/
def to_string (t : StatTable) : String :=
  joinLines ((t.header.foldl (fun acc c => acc ++ "  " ++ c) "") :: t.rows.map renderRow)

/-- Embedding of generate_prompt (src/utils/prompt.py lines 19-33): the
f-string instructing the analyst, with the two labels and the serialized
table spliced in at their placeholders. -/
def generate_prompt (data_summary : StatTable) (selected_area chart_type : String) : String :=
  "\n        Você é um analista educacional especializado no ENEM. \n        Gere um sumário conciso (máximo 150 palavras) em português sobre os seguintes dados:\n        \n        Área analisada: " ++
    (selected_area ++
      ("\n        Tipo de visualização: " ++
        (chart_type ++
          ("\n        \n        Dados estatísticos:\n        " ++
            (to_string data_summary ++
              "\n        \n        Inclua:\n        1. Principais insights\n        2. Diferenças notáveis entre grupos\n        3. Possíveis implicações educacionais\n    ")))))

/-- The string s contains t as a contiguous substring. -/
def ContainsSubstr (s t : String) : Prop := ∃ x y, s = x ++ (t ++ y)

/- ----------------------------------------------------------------
   C7, C8: generate_ai_summary (streamlit_service.py lines 165-197;
   same body in main.py 149-164). The try block composes the prompt,
   logs, calls get_response once and logs again; `except Exception`
   catches any exception raised inside the block, logs it, shows an
   st.error box and returns the fixed fallback string. The two
   collaborators are passed as Except-valued arguments so that every
   behavior — returning a value or raising — is covered; the emitted
   side effects are recorded as an event list.
   ---------------------------------------------------------------- -/

/-- One observable side effect of generate_ai_summary: a logger call, the
st.error box, or the single call to the external client. -/
inductive Event where
  | infoLog (msg : String)
  | debugLog (msg : String)
  | errorLog (msg : String)
  | stErrorBox (msg : String)
  | externalCall (sentPrompt : String)
deriving DecidableEq, Repr

/-- The fixed fallback text returned when the try block raises. -/
def fallback_msg : String := "Não foi possível gerar o sumário automático."

/-- Embedding of generate_ai_summary (streamlit_service.py lines 184-197):
`compose` is the outcome of generate_prompt(data_summary, ...) — ok with the
prompt, or error when composing raises — and `get_response` the outcome of
the external call on a given prompt. Returns the string the function returns
together with the events it emits, in order. -/
def generate_ai_summary (compose : Except String String)
    (get_response : String → Except String String) : String × List Event :=
  match compose with
  | Except.error e =>
    (fallback_msg,
     [Event.errorLog ("Erro ao gerar sumário: " ++ e),
      Event.stErrorBox ("Erro ao gerar sumário: " ++ e)])
  | Except.ok p =>
    match get_response p with
    | Except.ok r =>
      (r,
       [Event.infoLog "Prompt gerado com sucesso.",
        Event.debugLog ("Prompt gerado: " ++ p),
        Event.externalCall p,
        Event.infoLog "Sumário gerado com sucesso.",
        Event.debugLog ("Sumário gerado: " ++ r)])
    | Except.error e =>
      (fallback_msg,
       [Event.infoLog "Prompt gerado com sucesso.",
        Event.debugLog ("Prompt gerado: " ++ p),
        Event.externalCall p,
        Event.errorLog ("Erro ao gerar sumário: " ++ e),
        Event.stErrorBox ("Erro ao gerar sumário: " ++ e)])

/-- The number of calls the event list records to the external client. -/
def externalCalls (evs : List Event) : Nat :=
  (evs.filter (fun e => match e with | Event.externalCall _ => true | _ => false)).length

/-- The number of logger.error events in the event list. -/
def errorLogs (evs : List Event) : Nat :=
  (evs.filter (fun e => match e with | Event.errorLog _ => true | _ => false)).length

/- ----------------------------------------------------------------
   Helper lemmas.
   ---------------------------------------------------------------- -/

/-- The seeded sampler returns min n (length) rows. -/
theorem sampleRows_length {α : Type} (seed n : Nat) (l : List α) :
    (sampleRows seed n l).length = min n l.length := by
  induction n generalizing seed l with
  | zero => simp [sampleRows]
  | succ n ih =>
    cases l with
    | nil => simp [sampleRows]
    | cons r rs =>
      simp only [sampleRows, List.length_cons]
      rw [ih, List.length_eraseIdx]
      have h : lcgNext seed % (rs.length + 1) < rs.length + 1 :=
        Nat.mod_lt _ (Nat.succ_pos rs.length)
      simp only [List.length_cons, h, if_pos]
      omega

/-- Substring containment survives prepending. -/
theorem containsSubstr_append_left (x s t : String) (h : ContainsSubstr s t) :
    ContainsSubstr (x ++ s) t := by
  obtain ⟨a, b, rfl⟩ := h
  exact ⟨x ++ a, b, by simp [String.append_assoc]⟩

/-- Substring containment survives appending. -/
theorem containsSubstr_append_right (s y t : String) (h : ContainsSubstr s t) :
    ContainsSubstr (s ++ y) t := by
  obtain ⟨a, b, rfl⟩ := h
  exact ⟨a, b ++ y, by simp [String.append_assoc]⟩

/-- A string contains itself followed by anything. -/
theorem containsSubstr_self_append (t y : String) : ContainsSubstr (t ++ y) t :=
  ⟨"", y, by simp⟩

/-- Every line of a newline-joined list is contained in the joined string. -/
theorem containsSubstr_joinLines (l : List String) (x : String) (hx : x ∈ l) :
    ContainsSubstr (joinLines l) x := by
  induction l with
  | nil => simp at hx
  | cons a l ih =>
    cases l with
    | nil =>
      simp only [List.mem_singleton] at hx
      subst hx
      exact ⟨"", "", by simp [joinLines]⟩
    | cons b l2 =>
      rcases List.mem_cons.mp hx with h | h
      · subst h
        exact ⟨"", "\n" ++ joinLines (b :: l2), by simp [joinLines]⟩
      · have hrec := ih h
        show ContainsSubstr (a ++ ("\n" ++ joinLines (b :: l2))) x
        exact containsSubstr_append_left a _ x (containsSubstr_append_left "\n" _ x hrec)

/-- A sum of indicator terms over a list not containing the key is 0. -/
theorem sum_ite_eq_zero (K : List String) (k0 : String) (h : k0 ∉ K) :
    (K.map (fun k => if k = k0 then 1 else 0)).sum = 0 := by
  induction K with
  | nil => simp
  | cons a K ih =>
    have ha : ¬ a = k0 := fun he => h (he ▸ List.mem_cons_self a K)
    have hK : k0 ∉ K := fun hk => h (List.mem_cons_of_mem a hk)
    simp [ha, ih hK]

/-- A sum of indicator terms over a duplicate-free list containing the key
is 1. -/
theorem sum_ite_eq_one (K : List String) (k0 : String) (hnd : K.Nodup) (hk : k0 ∈ K) :
    (K.map (fun k => if k = k0 then 1 else 0)).sum = 1 := by
  induction K with
  | nil => simp at hk
  | cons a K ih =>
    obtain ⟨hna, hnd'⟩ := List.nodup_cons.mp hnd
    rcases List.mem_cons.mp hk with he | hm
    · subst he
      simp [sum_ite_eq_zero K k0 hna]
    · have ha : ¬ a = k0 := fun he => hna (he ▸ hm)
      simp [ha, ih hnd' hm]

/-- Splitting a group count at the head row. -/
theorem groupCount_cons (r : Rec) (rows : List Rec) (k : String) :
    groupCount (r :: rows) k
      = (if (r.key == some k && r.val.isSome) = true then 1 else 0) + groupCount rows k := by
  simp only [groupCount, List.filter_cons]
  by_cases h : (r.key == some k && r.val.isSome) = true
  · simp [h, Nat.add_comm]
  · simp [h]

/-- Partition counting: over a duplicate-free key list covering every key
occurring in the rows, the group counts sum to the number of rows carrying
both a key and a metric value. -/
theorem sum_groupCounts (rows : List Rec) (K : List String) (hnd : K.Nodup)
    (hcov : ∀ r ∈ rows, ∀ k, r.key = some k → k ∈ K) :
    (K.map (fun k => groupCount rows k)).sum
      = (rows.filter (fun r => r.key.isSome && r.val.isSome)).length := by
  induction rows with
  | nil => simp [groupCount]
  | cons r rows ih =>
    have hcov2 : ∀ x ∈ rows, ∀ k, x.key = some k → k ∈ K :=
      fun x hx => hcov x (List.mem_cons_of_mem _ hx)
    have hmap : K.map (fun k => groupCount (r :: rows) k)
        = K.map (fun k =>
            (if (r.key == some k && r.val.isSome) = true then 1 else 0) + groupCount rows k) :=
      List.map_congr_left (fun k _ => groupCount_cons r rows k)
    rw [hmap, List.sum_map_add, ih hcov2]
    have hhead : (K.map (fun k =>
        if (r.key == some k && r.val.isSome) = true then 1 else 0)).sum
        = if (r.key.isSome && r.val.isSome) = true then 1 else 0 := by
      cases hk : r.key with
      | none => simp
      | some k0 =>
        cases hv : r.val.isSome with
        | false => simp [hv]
        | true =>
          have hcong : K.map (fun k =>
              if (some k0 == some k) = true then 1 else 0)
              = K.map (fun k => if k = k0 then 1 else 0) := by
            refine List.map_congr_left (fun k _ => ?_)
            by_cases he : k = k0
            · subst he; simp
            · have hne : ¬ (some k0 == some k) = true :=
                fun hb => he (Option.some.inj (eq_of_beq hb)).symm
              simp [hne, he]
          have hk0 : k0 ∈ K := hcov r (List.mem_cons_self r rows) k0 hk
          simp only [hk, hv, Bool.and_true, Option.isSome_some, if_true]
          rw [hcong, sum_ite_eq_one K k0 hnd hk0]
    rw [hhead]
    simp only [List.filter_cons]
    by_cases h : (r.key.isSome && r.val.isSome) = true
    · simp [h, Nat.add_comm]
    · simp [h]

/- ----------------------------------------------------------------
   Claim theorems.
   ---------------------------------------------------------------- -/

/-- C2 counterexample: a non-empty two-row table where one row has a group
key but a missing metric value and the other a metric value but a missing
group key. The groupby-describe aggregation reports the all-missing group
with count 0 instead of excluding it, and the counts sum to 0 while one
record has a non-missing metric value. -/
theorem C2_counterexample_zero_count_group_reported :
    aggregate_describe [⟨some "Tem internet em casa", none⟩, ⟨none, some 5⟩]
        = [("Tem internet em casa", 0)] ∧
    ("Tem internet em casa", 0)
        ∈ aggregate_describe [⟨some "Tem internet em casa", none⟩, ⟨none, some 5⟩] ∧
    ((aggregate_describe [⟨some "Tem internet em casa", none⟩, ⟨none, some 5⟩]).map
        (fun e => e.2)).sum = 0 ∧
    (([⟨some "Tem internet em casa", none⟩, ⟨none, some 5⟩] : List Rec).filter
        (fun r => r.val.isSome)).length = 1 := by
  refine ⟨by decide, by decide, by decide, by decide⟩

/-- C2 amended: every reported group key occurs in the table; a group's
reported count is the number of its rows with a non-missing metric value —
0, not excluded, when they are all missing; every occurring key is
reported; and the counts sum to the number of records with both a
non-missing group key and a non-missing metric value. -/
theorem C2_amended_aggregate_counts (rows : List Rec) :
    (∀ k n, (k, n) ∈ aggregate_describe rows →
      (∃ r ∈ rows, r.key = some k) ∧ n = groupCount rows k) ∧
    (∀ k, (∃ r ∈ rows, r.key = some k) → (k, groupCount rows k) ∈ aggregate_describe rows) ∧
    ((aggregate_describe rows).map (fun e => e.2)).sum
      = (rows.filter (fun r => r.key.isSome && r.val.isSome)).length := by
  refine ⟨?_, ?_, ?_⟩
  · intro k n hkn
    obtain ⟨k2, hk2, hfk⟩ := List.mem_map.mp hkn
    simp only [Prod.mk.injEq] at hfk
    obtain ⟨hke, hne⟩ := hfk
    subst hke
    obtain ⟨r, hr, hrk⟩ := List.mem_filterMap.mp (List.mem_dedup.mp hk2)
    exact ⟨⟨r, hr, hrk⟩, hne.symm⟩
  · intro k hk
    obtain ⟨r, hr, hrk⟩ := hk
    have : k ∈ (rows.filterMap (fun r => r.key)).dedup :=
      List.mem_dedup.mpr (List.mem_filterMap.mpr ⟨r, hr, hrk⟩)
    exact List.mem_map.mpr ⟨k, this, rfl⟩
  · have hmm : ((aggregate_describe rows).map (fun e => e.2)).sum
        = (((rows.filterMap (fun r => r.key)).dedup).map (fun k => groupCount rows k)).sum := by
      simp only [aggregate_describe, List.map_map]
      rfl
    rw [hmm]
    refine sum_groupCounts rows _ (List.nodup_dedup _) ?_
    intro r hr k hrk
    exact List.mem_dedup.mpr (List.mem_filterMap.mpr ⟨r, hr, hrk⟩)

/-- Witness for C2 amended at a concrete two-row table sharing one group. -/
theorem C2_amended_aggregate_counts_witness :
    ((∃ r ∈ ([⟨some "Tem internet em casa", some 500⟩, ⟨some "Tem internet em casa", none⟩] :
          List Rec), r.key = some "Tem internet em casa") ∧
      1 = groupCount
        [⟨some "Tem internet em casa", some 500⟩, ⟨some "Tem internet em casa", none⟩]
        "Tem internet em casa") ∧
    ((aggregate_describe
        [⟨some "Tem internet em casa", some 500⟩, ⟨some "Tem internet em casa", none⟩]).map
        (fun e => e.2)).sum
      = (([⟨some "Tem internet em casa", some 500⟩, ⟨some "Tem internet em casa", none⟩] :
          List Rec).filter (fun r => r.key.isSome && r.val.isSome)).length :=
  ⟨(C2_amended_aggregate_counts _).1 "Tem internet em casa" 1 (by decide),
   (C2_amended_aggregate_counts _).2.2⟩

/-- C1: the two-group comparison metric of main.py lines 193-195. The
scenario half holds: at means 550 and 480 the difference is 70 and the
percentage of the baseline is 175/12, within 0.01 of 14.58. The
error-handling half does not: at baseline mean 0 the code divides
unguarded and numpy returns infinity (nan when the difference is also 0)
instead of failing fast with a DivisionByZero error. -/
theorem C1_percentage_metric_unguarded_at_zero_baseline :
    percentage_metric 550 480 = (70, NpVal.val (175 / 12)) ∧
    |(175 / 12 : ℚ) - 1458 / 100| < 1 / 100 ∧
    percentage_metric 550 0 = (550, NpVal.posInf) ∧
    percentage_metric 0 0 = (0, NpVal.nan) := by
  refine ⟨?_, by rw [abs_lt]; exact ⟨by norm_num, by norm_num⟩, ?_, ?_⟩
  all_goals simp [percentage_metric, npDiv, npMul100]
  all_goals norm_num

/-- C9: after the dtype-optimization loop of load_data, no column has
object dtype; every object column became categorical, regardless of its
content; every column of any other dtype is unchanged. -/
theorem C9_load_data_no_object_columns (schema : List (String × Dtype)) :
    (∀ cd ∈ load_data_optimize schema, cd.2 ≠ Dtype.object) ∧
    (∀ c, (c, Dtype.object) ∈ schema → (c, Dtype.category) ∈ load_data_optimize schema) ∧
    (∀ c d, (c, d) ∈ schema → d ≠ Dtype.object → (c, d) ∈ load_data_optimize schema) := by
  refine ⟨?_, ?_, ?_⟩
  · intro cd hcd
    obtain ⟨x, hx, hfx⟩ := List.mem_map.mp hcd
    by_cases hobj : x.2 = Dtype.object
    · simp only [load_data_optimize, hobj, if_pos] at hfx
      rw [← hfx]
      simp
    · simp only [load_data_optimize, hobj, if_neg, not_false_iff] at hfx
      rw [← hfx]
      exact hobj
  · intro c hc
    exact List.mem_map.mpr ⟨(c, Dtype.object), hc, by simp⟩
  · intro c d hcd hd
    exact List.mem_map.mpr ⟨(c, d), hcd, by simp [hd]⟩

/-- Witness for C9 at a concrete two-column schema. -/
theorem C9_load_data_no_object_columns_witness :
    (("INTERNET", Dtype.object) ∈ [("INTERNET", Dtype.object), ("NU_NOTA_MT", Dtype.float64)] ∧
      ("INTERNET", Dtype.category) ∈
        load_data_optimize [("INTERNET", Dtype.object), ("NU_NOTA_MT", Dtype.float64)]) ∧
    (("NU_NOTA_MT", Dtype.float64) ∈ [("INTERNET", Dtype.object), ("NU_NOTA_MT", Dtype.float64)] ∧
      ("NU_NOTA_MT", Dtype.float64) ∈
        load_data_optimize [("INTERNET", Dtype.object), ("NU_NOTA_MT", Dtype.float64)]) := by
  refine ⟨⟨by decide, ?_⟩, ⟨by decide, ?_⟩⟩
  · exact (C9_load_data_no_object_columns _).2.1 "INTERNET" (by decide)
  · exact (C9_load_data_no_object_columns _).2.2 "NU_NOTA_MT" Dtype.float64 (by decide) (by decide)

/-- C3: the boxplot branch of generate_comparison_chart samples
min(5000, row count) rows with the fixed seed 42, so the sampled
distribution view has exactly min(cap, number of records) rows, and two
invocations with the same seed and the same input table produce the
identical sampled rows. -/
theorem C3_sample_size_and_determinism (df : DataFrame) (area_col selected_area : String) :
    (∃ v t, generate_comparison_chart df area_col "Boxplot Simplificado" selected_area
        = ChartView.box v t ∧ v.rows.length = min 5000 df.rows.length) ∧
    (∀ df2 area2 sel2, df2 = df → area2 = area_col → sel2 = selected_area →
      generate_comparison_chart df2 area2 "Boxplot Simplificado" sel2
        = generate_comparison_chart df area_col "Boxplot Simplificado" selected_area) := by
  constructor
  · refine ⟨⟨df.cols, sampleRows 42 (min 5000 df.rows.length) df.rows⟩,
      "Distribuição de " ++ selected_area, ?_, ?_⟩
    · simp [generate_comparison_chart]
    · show (sampleRows 42 (min 5000 df.rows.length) df.rows).length = min 5000 df.rows.length
      rw [sampleRows_length]
      omega
  · intro df2 area2 sel2 h1 h2 h3
    rw [h1, h2, h3]

/-- Witness for C3 at a concrete two-row table. -/
theorem C3_sample_size_and_determinism_witness :
    (∃ v t, generate_comparison_chart
        ⟨["INTERNET", "NU_NOTA_MT"],
          [[Cell.str "Tem internet em casa", Cell.num 500],
           [Cell.str "Não tem internet em casa", Cell.num 400]]⟩
        "NU_NOTA_MT" "Boxplot Simplificado" "Matemática" = ChartView.box v t ∧
      v.rows.length = min 5000 2) ∧
    generate_comparison_chart
        ⟨["INTERNET", "NU_NOTA_MT"],
          [[Cell.str "Tem internet em casa", Cell.num 500],
           [Cell.str "Não tem internet em casa", Cell.num 400]]⟩
        "NU_NOTA_MT" "Boxplot Simplificado" "Matemática"
      = generate_comparison_chart
          ⟨["INTERNET", "NU_NOTA_MT"],
            [[Cell.str "Tem internet em casa", Cell.num 500],
             [Cell.str "Não tem internet em casa", Cell.num 400]]⟩
          "NU_NOTA_MT" "Boxplot Simplificado" "Matemática" :=
  ⟨(C3_sample_size_and_determinism _ "NU_NOTA_MT" "Matemática").1,
   (C3_sample_size_and_determinism _ "NU_NOTA_MT" "Matemática").2 _ _ _ rfl rfl rfl⟩

/-- C5 counterexample: on a table with a third column EXTRA, the sampled
view built by the boxplot branch still carries all three columns — the code
samples rows and never drops a column, so the claim that every column other
than the metric and the access flag is dropped is false. -/
theorem C5_counterexample_extra_column_kept :
    ∃ v t, generate_comparison_chart
        ⟨["INTERNET", "NU_NOTA_MT", "EXTRA"],
          [[Cell.str "Tem internet em casa", Cell.num 500, Cell.num 1]]⟩
        "NU_NOTA_MT" "Boxplot Simplificado" "Matemática" = ChartView.box v t ∧
      v.cols = ["INTERNET", "NU_NOTA_MT", "EXTRA"] ∧ "EXTRA" ∈ v.cols :=
  ⟨_, _, rfl, rfl, by simp⟩

/-- C5 amended: the boxplot branch samples rows only; the sampled view
keeps every column of the record table unchanged (the chart then reads just
the metric column and the access-flag column). -/
theorem C5_amended_sample_keeps_all_columns (df : DataFrame) (area_col selected_area : String) :
    ∃ v t, generate_comparison_chart df area_col "Boxplot Simplificado" selected_area
        = ChartView.box v t ∧ v.cols = df.cols :=
  ⟨⟨df.cols, sampleRows 42 (min 5000 df.rows.length) df.rows⟩,
    "Distribuição de " ++ selected_area, by simp [generate_comparison_chart], rfl⟩

/-- C10: every chart_type string other than the two named options —
including unknown or empty strings — takes the final else branch:
generate_comparison_chart returns the grouped-mean bar view whose entries
are exactly the (income bracket, access flag) combinations present in the
data, and it never rejects an unrecognized chart type. -/
theorem C10_else_branch_grouped_means (df : DataFrame)
    (area_col chart_type selected_area : String)
    (h1 : chart_type ≠ "Boxplot Simplificado") (h2 : chart_type ≠ "Histograma Agregado") :
    generate_comparison_chart df area_col chart_type selected_area
      = ChartView.groupedBar (groupbyMeanRendaInternet df area_col)
          ("Médias de " ++ selected_area ++ " por Renda e Internet") ∧
    ∀ a b m, (a, b, m) ∈ groupbyMeanRendaInternet df area_col →
      ∃ row ∈ df.rows, rendaInternetKey df row = some (a, b) := by
  constructor
  · simp [generate_comparison_chart, h1, h2]
  · intro a b m hm
    obtain ⟨p, hp, hfp⟩ := List.mem_map.mp hm
    obtain ⟨pa, pb⟩ := p
    simp only [Prod.mk.injEq] at hfp
    obtain ⟨ha, hb, -⟩ := hfp
    subst ha hb
    obtain ⟨row, hrow, hk⟩ := List.mem_filterMap.mp (List.mem_dedup.mp hp)
    exact ⟨row, hrow, hk⟩

/-- Witness for C10 at the actual third radio option and a one-row table. -/
theorem C10_else_branch_grouped_means_witness :
    generate_comparison_chart
        ⟨["RENDA_SIMPLIFICADA", "INTERNET", "NU_NOTA_MT"],
          [[Cell.str "Baixa", Cell.str "Tem internet em casa", Cell.num 500]]⟩
        "NU_NOTA_MT" "Médias Comparadas" "Matemática"
      = ChartView.groupedBar
          (groupbyMeanRendaInternet
            ⟨["RENDA_SIMPLIFICADA", "INTERNET", "NU_NOTA_MT"],
              [[Cell.str "Baixa", Cell.str "Tem internet em casa", Cell.num 500]]⟩
            "NU_NOTA_MT")
          ("Médias de " ++ "Matemática" ++ " por Renda e Internet") :=
  (C10_else_branch_grouped_means _ "NU_NOTA_MT" "Médias Comparadas" "Matemática"
    (by decide) (by decide)).1

/-- C7: when the external summarization call fails, generate_ai_summary
makes exactly one call to the client (no retry), logs the error exactly
once, shows it once, and returns the fixed fallback string to its caller —
it returns rather than letting the exception escape. -/
theorem C7_external_failure_single_attempt (p e : String)
    (get_response : String → Except String String)
    (hf : get_response p = Except.error e) :
    (generate_ai_summary (Except.ok p) get_response).1 = fallback_msg ∧
    externalCalls (generate_ai_summary (Except.ok p) get_response).2 = 1 ∧
    errorLogs (generate_ai_summary (Except.ok p) get_response).2 = 1 ∧
    Event.errorLog ("Erro ao gerar sumário: " ++ e)
      ∈ (generate_ai_summary (Except.ok p) get_response).2 ∧
    Event.stErrorBox ("Erro ao gerar sumário: " ++ e)
      ∈ (generate_ai_summary (Except.ok p) get_response).2 := by
  simp [generate_ai_summary, hf, externalCalls, errorLogs]

/-- Witness for C7 with a client that always fails. -/
theorem C7_external_failure_single_attempt_witness :
    (generate_ai_summary (Except.ok "P") (fun _ => Except.error "boom")).1 = fallback_msg ∧
    externalCalls (generate_ai_summary (Except.ok "P") (fun _ => Except.error "boom")).2 = 1 ∧
    errorLogs (generate_ai_summary (Except.ok "P") (fun _ => Except.error "boom")).2 = 1 ∧
    Event.errorLog ("Erro ao gerar sumário: " ++ "boom")
      ∈ (generate_ai_summary (Except.ok "P") (fun _ => Except.error "boom")).2 ∧
    Event.stErrorBox ("Erro ao gerar sumário: " ++ "boom")
      ∈ (generate_ai_summary (Except.ok "P") (fun _ => Except.error "boom")).2 :=
  C7_external_failure_single_attempt "P" "boom" (fun _ => Except.error "boom") rfl

/-- C8: generate_ai_summary is total — whatever the prompt composition and
the external client do, it returns a string, either the generated response
or the fixed fallback; and when composing the prompt itself raises, the
exception is caught too, the fallback is returned and the external client
is never called. -/
theorem C8_generate_ai_summary_total (compose : Except String String)
    (get_response : String → Except String String) :
    ((generate_ai_summary compose get_response).1 = fallback_msg ∨
      ∃ p r, compose = Except.ok p ∧ get_response p = Except.ok r ∧
        (generate_ai_summary compose get_response).1 = r) ∧
    (∀ e, compose = Except.error e →
      (generate_ai_summary compose get_response).1 = fallback_msg ∧
        externalCalls (generate_ai_summary compose get_response).2 = 0) := by
  constructor
  · cases hc : compose with
    | error e => left; simp [generate_ai_summary]
    | ok p =>
      cases hr : get_response p with
      | error e => left; simp [generate_ai_summary, hr]
      | ok r => right; exact ⟨p, r, rfl, hr, by simp [generate_ai_summary, hr]⟩
  · intro e hc
    subst hc
    simp [generate_ai_summary, externalCalls]

/-- Witness for C8 with a composition step that raises. -/
theorem C8_generate_ai_summary_total_witness :
    (generate_ai_summary (Except.error "compose failed") (fun _ => Except.ok "r")).1
        = fallback_msg ∧
    externalCalls
        (generate_ai_summary (Except.error "compose failed") (fun _ => Except.ok "r")).2 = 0 :=
  (C8_generate_ai_summary_total (Except.error "compose failed") (fun _ => Except.ok "r")).2
    "compose failed" rfl

/-- A successful wide-form lookup comes from a triple of the long form. -/
theorem lookupCell_mem (l : List (String × String × ℚ)) (a f : String) (v : ℚ)
    (h : lookupCell l a f = some v) : (a, f, v) ∈ l := by
  unfold lookupCell at h
  cases hf : l.find? (fun t => t.1 == a && t.2.1 == f) with
  | none => rw [hf] at h; simp at h
  | some t =>
    rw [hf] at h
    simp only [Option.map_some'] at h
    have hv : t.2.2 = v := Option.some.inj h
    have hm := List.mem_of_find?_eq_some hf
    have hp := List.find?_some hf
    rw [Bool.and_eq_true] at hp
    have e1 : t.1 = a := eq_of_beq hp.1
    have e2 : t.2.1 = f := eq_of_beq hp.2
    rw [← e1, ← e2, ← hv]
    exact hm

/-- With duplicate-free (area, flag) keys, the wide-form cell of a member
triple is its value. -/
theorem lookupCell_of_mem (l : List (String × String × ℚ))
    (hnd : (l.map pivotKey).Nodup) (a f : String) (v : ℚ) (hm : (a, f, v) ∈ l) :
    lookupCell l a f = some v := by
  induction l with
  | nil => simp at hm
  | cons t l ih =>
    rw [List.map_cons, List.nodup_cons] at hnd
    obtain ⟨hnk, hnd2⟩ := hnd
    by_cases hp : (t.1 == a && t.2.1 == f) = true
    · have hfind : lookupCell (t :: l) a f = some t.2.2 := by
        unfold lookupCell
        rw [List.find?_cons_of_pos (p := fun u => u.1 == a && u.2.1 == f) l hp]
        rfl
      rcases List.mem_cons.mp hm with he | hl
      · rw [hfind, ← he]
      · exfalso
        rw [Bool.and_eq_true] at hp
        have e1 : t.1 = a := eq_of_beq hp.1
        have e2 : t.2.1 = f := eq_of_beq hp.2
        apply hnk
        have hmem : pivotKey (a, f, v) ∈ l.map pivotKey := List.mem_map_of_mem _ hl
        have hkey : pivotKey t = pivotKey (a, f, v) := by simp [pivotKey, e1, e2]
        rw [hkey]
        exact hmem
    · have hfind : lookupCell (t :: l) a f = lookupCell l a f := by
        unfold lookupCell
        rw [List.find?_cons_of_neg (p := fun u => u.1 == a && u.2.1 == f) l hp]
      rcases List.mem_cons.mp hm with he | hl
      · exfalso
        apply hp
        rw [← he]
        simp
      · rw [hfind]
        exact ih hnd2 hl

/-- A triple is in the un-pivoted wide form exactly when its area and flag
occur and its value is the wide-form cell. -/
theorem mem_unpivot_pivotWide (l : List (String × String × ℚ)) (a f : String) (v : ℚ) :
    (a, f, v) ∈ unpivot (pivotWide l) ↔
      a ∈ pivotAreas l ∧ f ∈ pivotFlags l ∧ lookupCell l a f = some v := by
  constructor
  · intro h
    obtain ⟨ac, hac, hmem⟩ := List.mem_flatMap.mp h
    obtain ⟨a2, ha2, hae⟩ := List.mem_map.mp hac
    subst hae
    obtain ⟨fc, hfc, hfe⟩ := List.mem_filterMap.mp hmem
    obtain ⟨f2, hf2, hfe2⟩ := List.mem_map.mp hfc
    subst hfe2
    cases hlc : lookupCell l a2 f2 with
    | none => rw [hlc] at hfe; simp at hfe
    | some v2 =>
      rw [hlc] at hfe
      simp only [Option.map_some', Option.some.injEq, Prod.mk.injEq] at hfe
      obtain ⟨ea, ef, ev⟩ := hfe
      subst ea
      subst ef
      subst ev
      exact ⟨ha2, hf2, hlc⟩
  · rintro ⟨ha, hf, hlc⟩
    refine List.mem_flatMap.mpr
      ⟨(a, (pivotFlags l).map (fun f2 => (f2, lookupCell l a f2))), ?_, ?_⟩
    · exact List.mem_map.mpr ⟨a, ha, rfl⟩
    · refine List.mem_filterMap.mpr ⟨(f, lookupCell l a f), ?_, ?_⟩
      · exact List.mem_map.mpr ⟨f, hf, rfl⟩
      · rw [hlc]
        rfl

/-- C4: with unique (area, access flag) keys, the pivot of main.py line 233
succeeds (pandas would raise on duplicate keys) and un-pivoting the wide
form recovers exactly the original long-form set of
(area, access flag, statistic value) triples. -/
theorem C4_pivot_roundtrip (l : List (String × String × ℚ))
    (hnd : (l.map pivotKey).Nodup) :
    ∃ w, pivot l = some w ∧ ∀ a f v, ((a, f, v) ∈ unpivot w ↔ (a, f, v) ∈ l) := by
  refine ⟨pivotWide l, by simp [pivot, hnd], ?_⟩
  intro a f v
  rw [mem_unpivot_pivotWide]
  constructor
  · rintro ⟨-, -, hlc⟩
    exact lookupCell_mem l a f v hlc
  · intro hm
    refine ⟨?_, ?_, lookupCell_of_mem l hnd a f v hm⟩
    · exact List.mem_dedup.mpr (List.mem_map_of_mem _ hm)
    · exact List.mem_dedup.mpr (List.mem_map_of_mem _ hm)

/-- Witness for C4 at a concrete duplicate-free two-row long form. -/
theorem C4_pivot_roundtrip_witness :
    ∃ w, pivot [("Ciências da Natureza", "Tem internet em casa", 500),
                ("Matemática", "Tem internet em casa", 520)] = some w ∧
      ∀ a f v, ((a, f, v) ∈ unpivot w ↔
        (a, f, v) ∈ [("Ciências da Natureza", "Tem internet em casa", 500),
                     ("Matemática", "Tem internet em casa", 520)]) :=
  C4_pivot_roundtrip _ (by decide)

/-- C6: the composed prompt contains the metric label verbatim, the
view-kind label verbatim and the serialized rendering of every row of the
statistic table, and the composition is deterministic — equal inputs give
byte-identical output, with no timestamp or other varying part. -/
theorem C6_generate_prompt_contains_and_deterministic
    (tbl : StatTable) (selected_area chart_type : String) :
    ContainsSubstr (generate_prompt tbl selected_area chart_type) selected_area ∧
    ContainsSubstr (generate_prompt tbl selected_area chart_type) chart_type ∧
    (∀ r ∈ tbl.rows,
      ContainsSubstr (generate_prompt tbl selected_area chart_type) (renderRow r)) ∧
    (∀ tbl2 a2 c2, tbl2 = tbl → a2 = selected_area → c2 = chart_type →
      generate_prompt tbl2 a2 c2 = generate_prompt tbl selected_area chart_type) := by
  refine ⟨?_, ?_, ?_, ?_⟩
  · unfold generate_prompt
    exact containsSubstr_append_left _ _ _ (containsSubstr_self_append _ _)
  · unfold generate_prompt
    exact containsSubstr_append_left _ _ _ (containsSubstr_append_left _ _ _
      (containsSubstr_append_left _ _ _ (containsSubstr_self_append _ _)))
  · intro r hr
    unfold generate_prompt
    refine containsSubstr_append_left _ _ _ (containsSubstr_append_left _ _ _
      (containsSubstr_append_left _ _ _ (containsSubstr_append_left _ _ _
        (containsSubstr_append_left _ _ _ (containsSubstr_append_right _ _ _ ?_)))))
    unfold to_string
    exact containsSubstr_joinLines _ _
      (List.mem_cons_of_mem _ (List.mem_map_of_mem renderRow hr))
  · intro tbl2 a2 c2 h1 h2 h3
    rw [h1, h2, h3]

/-- Witness for C6 at a concrete two-row statistic table with the labels
Mathematics and Grouped Bar. -/
theorem C6_generate_prompt_contains_and_deterministic_witness :
    ContainsSubstr
      (generate_prompt
        ⟨["mean", "std"],
         [("Tem internet em casa", ["550.0", "10.0"]),
          ("Não tem internet em casa", ["480.0", "12.0"])]⟩
        "Mathematics" "Grouped Bar") "Mathematics" ∧
    ContainsSubstr
      (generate_prompt
        ⟨["mean", "std"],
         [("Tem internet em casa", ["550.0", "10.0"]),
          ("Não tem internet em casa", ["480.0", "12.0"])]⟩
        "Mathematics" "Grouped Bar") "Grouped Bar" ∧
    ContainsSubstr
      (generate_prompt
        ⟨["mean", "std"],
         [("Tem internet em casa", ["550.0", "10.0"]),
          ("Não tem internet em casa", ["480.0", "12.0"])]⟩
        "Mathematics" "Grouped Bar")
      (renderRow ("Tem internet em casa", ["550.0", "10.0"])) ∧
    ContainsSubstr
      (generate_prompt
        ⟨["mean", "std"],
         [("Tem internet em casa", ["550.0", "10.0"]),
          ("Não tem internet em casa", ["480.0", "12.0"])]⟩
        "Mathematics" "Grouped Bar")
      (renderRow ("Não tem internet em casa", ["480.0", "12.0"])) ∧
    generate_prompt
        ⟨["mean", "std"],
         [("Tem internet em casa", ["550.0", "10.0"]),
          ("Não tem internet em casa", ["480.0", "12.0"])]⟩
        "Mathematics" "Grouped Bar"
      = generate_prompt
          ⟨["mean", "std"],
           [("Tem internet em casa", ["550.0", "10.0"]),
            ("Não tem internet em casa", ["480.0", "12.0"])]⟩
          "Mathematics" "Grouped Bar" := by
  have h := C6_generate_prompt_contains_and_deterministic
    ⟨["mean", "std"],
     [("Tem internet em casa", ["550.0", "10.0"]),
      ("Não tem internet em casa", ["480.0", "12.0"])]⟩
    "Mathematics" "Grouped Bar"
  exact ⟨h.1, h.2.1, h.2.2.1 _ (by decide), h.2.2.1 _ (by decide),
    h.2.2.2 _ _ _ rfl rfl rfl⟩

end Enem2023
